import Mathlib

set_option autoImplicit false

/-!
Verification of the velo-trading-system ingestion pipeline.

This file is a shallow embedding of the two source files of the repository:

* `src/main.py`   — the daily collector (`collect_data`): enumerates the
  (date × symbol × timeframe) grid, checks existence in the destination,
  fetches live OHLCV bars from the exchange, filters them to the requested
  UTC day, normalizes them, and issues a single append at the end of the run.
* `src/backfill.py` — the historical backfill job (`main` /
  `download_and_parse_zip`): enumerates the same grid, downloads zipped
  daily CSVs from the archive, parses and type-converts them, and issues one
  append per date.

External effects (BigQuery queries and loads, HTTP requests, the exchange
client) are modelled as components of an environment record; timestamps are
integers (ms or µs as in the source); a calendar date is its UTC day index
(an integer), so that start-of-day in ms is `day * 86_400_000`. Numeric
payload cells (prices, volumes) are carried as integers because the source
only copies them; cells of an archive CSV are modelled by `Cell`, which
distinguishes a parseable numeric text from an unparsable one.
-/

/-- The four configured timeframes (`TIMEFRAMES = ['1m','5m','15m','1h']`). -/
inductive Timeframe where
  | m1 | m5 | m15 | h1
deriving DecidableEq, Repr

open Timeframe

/-- `BARS_PER_DAY = {'1m': 1440, '5m': 288, '15m': 96, '1h': 24}` from main.py. -/
def BARS_PER_DAY : Timeframe → Nat
  | m1 => 1440
  | m5 => 288
  | m15 => 96
  | h1 => 24

/-- Embedding of `int(tf.replace('m','').replace('h','')) * (1 if 'm' in tf else 60)`
(main.py line 94): the timeframe's length in minutes. -/
def tfMinutes : Timeframe → Nat
  | m1 => 1 * 1
  | m5 => 5 * 1
  | m15 => 15 * 1
  | h1 => 1 * 60

/-- The nominal timeframe duration in seconds, as named in the spec
(60s / 300s / 900s / 3600s). -/
def nominalSeconds : Timeframe → Nat
  | m1 => 60
  | m5 => 300
  | m15 => 900
  | h1 => 3600

/-- `SYMBOLS` of main.py: CCXT symbols for Binance USD-M perpetual futures. -/
def SYMBOLS_CCXT : List String :=
  ["BTC/USDT:USDT", "ETH/USDT:USDT", "SOL/USDT:USDT", "BNB/USDT:USDT"]

/-- `SYMBOLS` of backfill.py: plain symbols. -/
def SYMBOLS : List String := ["BTCUSDT", "ETHUSDT", "SOLUSDT", "BNBUSDT"]

/-- All configured timeframes as a list. -/
def TIMEFRAMES : List Timeframe := [m1, m5, m15, h1]

/-- `clean_symbol` of main.py: convert `BTC/USDT:USDT` to `BTCUSDT`. -/
def clean_symbol (symbol : String) : String :=
  symbol.replace "/USDT:USDT" "USDT"

/-- The list of target dates both entry points build: for
`day_offset in range(1, days_back+1)` the date `today - day_offset`
(main.py lines 48-49, backfill.py lines 159-162).  A date is its UTC day
index. -/
def datesOf (today : Int) (n : Nat) : List Int :=
  (List.range n).map (fun (i : Nat) => today - ((i : Int) + 1))

/-- Start of the UTC day in epoch milliseconds
(`datetime.combine(target_date, time.min, utc).timestamp() * 1000`). -/
def startMsOfDate (d : Int) : Int := d * 86400000

/-! ## Daily collector (src/main.py, `collect_data`) -/

/-- One raw bar returned by `exchange.fetch_ohlcv`: a 6-tuple
`(timestamp_ms, open, high, low, close, volume)`. Prices are carried as
integers; the code only copies them. -/
structure LiveRow where
  open_time : Int
  o : Int
  h : Int
  l : Int
  c : Int
  v : Int
deriving DecidableEq, Repr

/-- A normalized row as built by collect_data (main.py lines 86-107):
times in microseconds, zero defaults for the fields the live source does
not report. -/
structure Candle where
  open_time : Int
  o : Int
  h : Int
  l : Int
  c : Int
  v : Int
  close_time : Int
  quote_volume : Int
  trades : Int
  taker_buy_base : Int
  taker_buy_quote : Int
  symbol : String
  timeframe : Timeframe
  date : Int
deriving DecidableEq, Repr

/-- External world of collect_data: the existence query
(`SELECT COUNT(*) ... WHERE symbol/timeframe/date`, which can raise),
the exchange fetch (symbol, timeframe, since, limit — can raise),
and whether the final BigQuery load succeeds. -/
structure CollectEnv where
  oracle : String → Timeframe → Int → Except Unit Nat
  fetch : String → Timeframe → Int → Nat → Except Unit (List LiveRow)
  loadOk : Bool

/-- The window filter of main.py line 87:
`df[(df['open_time'] >= start_ms) & (df['open_time'] < end_ms)]` with
`end_ms = start_ms + 86_400_000`. -/
def inWindow (startMs : Int) (r : LiveRow) : Bool :=
  decide (startMs ≤ r.open_time) && decide (r.open_time < startMs + 86400000)

/-- Normalization of one live bar (main.py lines 93-107): timestamp
ms → µs, `close_time = open_time + tf_minutes * 60 * 1_000_000`,
zero defaults for the unreported fields, metadata attached. -/
def normalizeLive (sym : String) (tf : Timeframe) (date : Int) (r : LiveRow) : Candle :=
  { open_time := r.open_time * 1000
    o := r.o, h := r.h, l := r.l, c := r.c, v := r.v
    close_time := r.open_time * 1000 + (tfMinutes tf : Int) * 60 * 1000000
    quote_volume := 0
    trades := 0
    taker_buy_base := 0
    taker_buy_quote := 0
    symbol := sym
    timeframe := tf
    date := date }

/-- Terminal outcome of one unit of the collector's grid. -/
inductive UnitOutcome where
  | skipped (existing : Nat)
  | collected (bars : Nat)
  | noData
  | noDataRange
  | errored
deriving DecidableEq, Repr

/-- Outcomes counted by `success_count` (main.py lines 74 and 111):
a skip or a successful collection. -/
def UnitOutcome.isSuccess : UnitOutcome → Bool
  | .skipped _ => true
  | .collected _ => true
  | _ => false

/-- Result of processing one (date, symbol, timeframe) unit. -/
structure UnitStep where
  outcome : UnitOutcome
  fetchCalled : Bool
  candles : List Candle
deriving Repr

/-- One iteration of the innermost loop of collect_data (main.py lines
61-116): existence check, then fetch, window filter, normalization. Any
exception from the oracle or the fetch is caught at this boundary
(`except Exception`). -/
def processUnit (env : CollectEnv) (date startMs : Int) (sym : String) (tf : Timeframe) :
    UnitStep :=
  match env.oracle (clean_symbol sym) tf date with
  | .error _ => { outcome := .errored, fetchCalled := false, candles := [] }
  | .ok existing =>
    if existing > 0 then
      { outcome := .skipped existing, fetchCalled := false, candles := [] }
    else
      match env.fetch sym tf startMs (BARS_PER_DAY tf + 10) with
      | .error _ => { outcome := .errored, fetchCalled := true, candles := [] }
      | .ok ohlcv =>
        if ohlcv.isEmpty then
          { outcome := .noData, fetchCalled := true, candles := [] }
        else
          let df := ohlcv.filter (inWindow startMs)
          if df.isEmpty then
            { outcome := .noDataRange, fetchCalled := true, candles := [] }
          else
            { outcome := .collected df.length, fetchCalled := true,
              candles := df.map (normalizeLive (clean_symbol sym) tf date) }

/-- The (symbol, timeframe) pairs visited inside each date, in loop order
(`List.product` is literally the nested for-loop: `flatMap` over the outer
list of `map` over the inner one). -/
def livePairs : List (String × Timeframe) :=
  SYMBOLS_CCXT.product TIMEFRAMES

/-- The grid collect_data traverses: dates outermost, then symbols, then
timeframes. -/
def liveGrid (today : Int) (n : Nat) : List (Int × String × Timeframe) :=
  (datesOf today n).product livePairs

/-- Observable result of one collect_data run. -/
structure CollectResult where
  outcomes : List (Int × String × Timeframe × UnitOutcome)
  fetchCalls : Nat
  loadCalls : List (List Candle)
  loadFailed : Bool
  loadedRows : Nat
  successCount : Nat
  totalCount : Nat
  status : Nat
deriving Repr

/-- Per-unit processing over the whole grid, in traversal order. -/
def collectSteps (env : CollectEnv) (today : Int) (daysBack : Nat) :
    List ((Int × String × Timeframe) × UnitStep) :=
  (liveGrid today daysBack).map
    (fun u => (u, processUnit env u.1 (startMsOfDate u.1) u.2.1 u.2.2))

/-- `all_data` of collect_data: the data frames appended by successful
units, in grid order. -/
def collectAllData (env : CollectEnv) (today : Int) (daysBack : Nat) : List (List Candle) :=
  (collectSteps env today daysBack).filterMap
    (fun p => if p.2.candles.isEmpty then none else some p.2.candles)

/-- The whole collect_data run (main.py lines 30-134): process every grid
unit, accumulate the normalized frames of successful units into `all_data`,
and, if `all_data` is non-empty, issue exactly one load of the
concatenation; status 200 iff `success_count == total_count`, else 207. -/
def collectData (env : CollectEnv) (today : Int) (daysBack : Nat) : CollectResult :=
  let steps := collectSteps env today daysBack
  let all_data := collectAllData env today daysBack
  let combined := all_data.flatten
  let successCount := steps.countP (fun p => p.2.outcome.isSuccess)
  let totalCount := SYMBOLS_CCXT.length * TIMEFRAMES.length * daysBack
  { outcomes := steps.map (fun p => (p.1.1, clean_symbol p.1.2.1, p.1.2.2, p.2.outcome))
    fetchCalls := steps.countP (fun p => p.2.fetchCalled)
    loadCalls := if all_data.isEmpty then [] else [combined]
    loadFailed := if all_data.isEmpty then false else !env.loadOk
    loadedRows := if all_data.isEmpty then 0 else if env.loadOk then combined.length else 0
    successCount := successCount
    totalCount := totalCount
    status := if successCount = totalCount then 200 else 207 }

/-! ## Backfill job (src/backfill.py) -/

/-- One CSV cell of an archive payload: either parseable numeric text or
unparsable text. -/
inductive Cell where
  | num (v : Int)
  | bad
deriving DecidableEq, Repr

/-- A raw CSV row: positional cells. -/
abbrev RawRow := List Cell

/-- What `requests.get` + zip extraction produce for one unit: a 404, a
successfully extracted CSV (list of raw rows), or a transport/HTTP/zip
failure that raises inside the `try` block. -/
inductive HttpResp where
  | notFound
  | ok (payload : List RawRow)
  | fail
deriving Repr

/-- A parsed archive row after the type conversions of backfill.py lines
49-68: times converted with `pd.to_datetime(unit='ms')` (the instant,
carried here in ms), float columns converted with
`pd.to_numeric(errors='coerce')` (`none` is the NaN sentinel), `trades`
converted with `astype(int)`, the `ignore` column dropped, metadata
attached. -/
structure ArchiveRow where
  open_time : Int
  o : Option Int
  h : Option Int
  l : Option Int
  c : Option Int
  v : Option Int
  close_time : Int
  quote_volume : Option Int
  trades : Int
  taker_buy_base : Option Int
  taker_buy_quote : Option Int
  symbol : String
  timeframe : Timeframe
  date : Int
deriving DecidableEq, Repr

/-- Positional cell access; a missing position reads as unparsable. -/
def getCell (r : RawRow) (i : Nat) : Cell := r.getD i .bad

/-- `pd.to_numeric(errors='coerce')`: an unparsable cell becomes the NaN
sentinel instead of failing. -/
def cellVal : Cell → Option Int
  | .num v => some v
  | .bad => none

/-- Whether a cell is parseable numeric text. -/
def Cell.isNum : Cell → Bool
  | .num _ => true
  | .bad => false

/-- External world of the backfill job: the archive response per
(symbol, timeframe, date) and the BigQuery load (returns
`job.output_rows`, or raises). -/
structure BackfillEnv where
  http : String → Timeframe → Int → HttpResp
  load : List ArchiveRow → Except Unit Nat

/-- The line printed by the `except` clause of download_and_parse_zip. -/
def errMsg (s : String) (tf : Timeframe) (d : Int) : String :=
  "  Error " ++ s ++ " " ++ toString (tfMinutes tf) ++ "m " ++ toString d

/-- Conversion of one raw row. `pd.to_datetime` on the time columns and
`astype(int)` on `trades` raise on an unparsable cell (failing the whole
payload); the eight float columns are coerced. -/
def parseRow (sym : String) (tf : Timeframe) (date : Int) (r : RawRow) : Option ArchiveRow :=
  match cellVal (getCell r 0), cellVal (getCell r 6), cellVal (getCell r 8) with
  | some ot, some ct, some tr =>
    some { open_time := ot
           o := cellVal (getCell r 1), h := cellVal (getCell r 2)
           l := cellVal (getCell r 3), c := cellVal (getCell r 4)
           v := cellVal (getCell r 5)
           close_time := ct
           quote_volume := cellVal (getCell r 7)
           trades := tr
           taker_buy_base := cellVal (getCell r 9)
           taker_buy_quote := cellVal (getCell r 10)
           symbol := sym, timeframe := tf, date := date }
  | _, _, _ => none

/-- Column-wise conversion of the whole payload: one bad time or trades
cell anywhere fails the payload (the raised exception is caught by the
outer `except`). -/
def parseAll (sym : String) (tf : Timeframe) (date : Int) :
    List RawRow → Option (List ArchiveRow)
  | [] => some []
  | r :: rest =>
    match parseRow sym tf date r, parseAll sym tf date rest with
    | some a, some tail => some (a :: tail)
    | _, _ => none

/-- Shape acceptance: `pd.read_csv` raises `EmptyDataError` on an empty
payload, and `df.columns = [...12 names]` raises unless the frame has
exactly 12 columns. -/
def shapeOk (payload : List RawRow) : Bool :=
  !payload.isEmpty && payload.all (fun r => r.length == 12)

/-- `download_and_parse_zip` (backfill.py lines 29-74): a 404 returns
`None` silently; any exception inside the `try` (transport error, bad
zip, shape mismatch, unparsable time/trades cell) is caught, printed, and
also returns `None`. The second component is the list of printed error
lines. -/
def downloadAndParseZip (env : BackfillEnv) (sym : String) (tf : Timeframe) (date : Int) :
    Option (List ArchiveRow) × List String :=
  match env.http sym tf date with
  | .notFound => (none, [])
  | .fail => (none, [errMsg sym tf date])
  | .ok payload =>
    if shapeOk payload then
      match parseAll sym tf date payload with
      | some rows => (some rows, [])
      | none => (none, [errMsg sym tf date])
    else (none, [errMsg sym tf date])

/-- The (symbol, timeframe) pairs the backfill job visits inside each
date, in loop order. -/
def archivePairs : List (String × Timeframe) :=
  SYMBOLS.product TIMEFRAMES

/-- The grid the backfill job traverses. -/
def archiveGrid (today : Int) (n : Nat) : List (Int × String × Timeframe) :=
  (datesOf today n).product archivePairs

/-- The per-unit download results of one date, in loop order
(backfill.py lines 175-182). -/
def dayFetches (env : BackfillEnv) (d : Int) :
    List (String × Timeframe × Option (List ArchiveRow)) :=
  archivePairs.map (fun p => (p.1, p.2, (downloadAndParseZip env p.1 p.2 d).1))

/-- `day_data`: the frames of the units that returned data, in loop order. -/
def dayData (env : BackfillEnv) (d : Int) : List (List ArchiveRow) :=
  (dayFetches env d).filterMap (fun x => x.2.2)

/-- Observable result of one backfill run. -/
structure BackfillResult where
  fetchedUnits : List (Int × String × Timeframe)
  loadCalls : List (Int × List ArchiveRow)
  totalFiles : Nat
  totalRows : Nat
  processedDates : List Int
  aborted : Bool
deriving Repr

/-- The date loop of backfill.py `main` (lines 171-189). The call to
`load_to_bigquery` is not inside any `try`: a raised `LoadError` escapes
`main`, so the run stops (`aborted`) and the remaining dates are never
processed. -/
def backfillGo (env : BackfillEnv) : List Int → BackfillResult → BackfillResult
  | [], acc => acc
  | d :: rest, acc =>
    let fetched := acc.fetchedUnits ++ (dayFetches env d).map (fun x => (d, x.1, x.2.1))
    let dd := dayData env d
    if dd.isEmpty then
      backfillGo env rest
        { acc with fetchedUnits := fetched, processedDates := acc.processedDates ++ [d] }
    else
      let combined := dd.flatten
      match env.load combined with
      | .ok rows =>
        backfillGo env rest
          { acc with
            fetchedUnits := fetched
            loadCalls := acc.loadCalls ++ [(d, combined)]
            totalFiles := acc.totalFiles + dd.length
            totalRows := acc.totalRows + rows
            processedDates := acc.processedDates ++ [d] }
      | .error _ =>
        { acc with
          fetchedUnits := fetched
          loadCalls := acc.loadCalls ++ [(d, combined)]
          processedDates := acc.processedDates ++ [d]
          aborted := true }

/-- The whole backfill `main` run over the configured lookback. -/
def backfillMain (env : BackfillEnv) (today : Int) (daysBack : Nat) : BackfillResult :=
  backfillGo env (datesOf today daysBack)
    { fetchedUnits := [], loadCalls := [], totalFiles := 0, totalRows := 0,
      processedDates := [], aborted := false }

/-! ## Helper lemmas -/

theorem datesOf_nodup (today : Int) (n : Nat) : (datesOf today n).Nodup := by
  unfold datesOf
  refine List.Nodup.map ?_ (List.nodup_range n)
  intro i j hij
  have h : today - ((i : Int) + 1) = today - ((j : Int) + 1) := hij
  omega

theorem datesOf_mem_iff (today : Int) (n : Nat) (d : Int) :
    d ∈ datesOf today n ↔ today - n ≤ d ∧ d < today := by
  unfold datesOf
  rw [List.mem_map]
  constructor
  · rintro ⟨i, hi, rfl⟩
    rw [List.mem_range] at hi
    constructor <;> omega
  · rintro ⟨h1, h2⟩
    refine ⟨(today - d - 1).toNat, List.mem_range.mpr ?_, ?_⟩ <;> omega

theorem datesOf_length (today : Int) (n : Nat) : (datesOf today n).length = n := by
  unfold datesOf
  rw [List.length_map, List.length_range]

theorem datesOf_head (today : Int) (n : Nat) (h : 0 < n) :
    (datesOf today n).head? = some (today - 1) := by
  unfold datesOf
  cases n with
  | zero => omega
  | succ m =>
    rw [List.range_succ_eq_map]
    simp

theorem livePairs_nodup : livePairs.Nodup := by decide

theorem archivePairs_nodup : archivePairs.Nodup := by decide

theorem liveGrid_nodup (today : Int) (n : Nat) : (liveGrid today n).Nodup :=
  (datesOf_nodup today n).product livePairs_nodup

theorem archiveGrid_nodup (today : Int) (n : Nat) : (archiveGrid today n).Nodup :=
  (datesOf_nodup today n).product archivePairs_nodup

theorem liveGrid_length (today : Int) (n : Nat) :
    (liveGrid today n).length = SYMBOLS_CCXT.length * TIMEFRAMES.length * n := by
  have h1 : livePairs.length = 16 := by decide
  have h2 : SYMBOLS_CCXT.length = 4 := by decide
  have h3 : TIMEFRAMES.length = 4 := by decide
  show ((datesOf today n) ×ˢ livePairs).length = _
  rw [List.length_product, datesOf_length, h1, h2, h3]
  ring

theorem processUnit_skip (env : CollectEnv) (d ms : Int) (s : String) (tf : Timeframe)
    (k : Nat) (hk : 0 < k) (h : env.oracle (clean_symbol s) tf d = .ok k) :
    processUnit env d ms s tf =
      { outcome := .skipped k, fetchCalled := false, candles := [] } := by
  unfold processUnit
  rw [h]
  simp [hk]

theorem processUnit_candles_shape (env : CollectEnv) (d ms : Int) (s : String)
    (tf : Timeframe) :
    (processUnit env d ms s tf).candles = [] ∨
      ∃ rows, env.fetch s tf ms (BARS_PER_DAY tf + 10) = .ok rows ∧
        (processUnit env d ms s tf).candles =
          (rows.filter (inWindow ms)).map (normalizeLive (clean_symbol s) tf d) := by
  unfold processUnit
  cases ho : env.oracle (clean_symbol s) tf d with
  | error e => exact Or.inl rfl
  | ok k =>
    by_cases hk : k > 0
    · simp only [hk, if_pos]
      exact Or.inl (by trivial)
    · simp only [hk, if_neg, if_false]
      cases hf : env.fetch s tf ms (BARS_PER_DAY tf + 10) with
      | error e => exact Or.inl (by trivial)
      | ok rows =>
        by_cases he : rows.isEmpty
        · simp only [he, if_pos]
          exact Or.inl (by trivial)
        · simp only [he, if_neg, if_false]
          by_cases hfe : (rows.filter (inWindow ms)).isEmpty
          · simp only [hfe, if_pos]
            exact Or.inl (by trivial)
          · simp only [hfe, if_neg, if_false]
            exact Or.inr ⟨rows, rfl, rfl⟩

theorem parseAll_length (sym : String) (tf : Timeframe) (date : Int) :
    ∀ (l : List RawRow) (rows : List ArchiveRow),
      parseAll sym tf date l = some rows → rows.length = l.length := by
  intro l
  induction l with
  | nil =>
    intro rows h
    simp only [parseAll, Option.some.injEq] at h
    rw [← h]
    rfl
  | cons r rest ih =>
    intro rows h
    simp only [parseAll] at h
    cases h1 : parseRow sym tf date r with
    | none => rw [h1] at h; exact absurd h (by simp)
    | some a =>
      cases h2 : parseAll sym tf date rest with
      | none => rw [h1, h2] at h; exact absurd h (by simp)
      | some tail =>
        rw [h1, h2] at h
        simp only [Option.some.injEq] at h
        rw [← h]
        simp [ih tail h2]

theorem download_some_parsed (env : BackfillEnv) (s : String) (tf : Timeframe) (d : Int)
    (rows : List ArchiveRow) (h : (downloadAndParseZip env s tf d).1 = some rows) :
    ∃ payload, env.http s tf d = .ok payload ∧ shapeOk payload = true ∧
      parseAll s tf d payload = some rows := by
  unfold downloadAndParseZip at h
  split at h
  · simp at h
  · simp at h
  · rename_i payload hh
    split at h
    · rename_i hs
      split at h
      · rename_i rows0 hp
        simp only [Option.some.injEq] at h
        subst h
        exact ⟨payload, hh, hs, hp⟩
      · simp at h
    · simp at h

theorem download_some_ne_nil (env : BackfillEnv) (s : String) (tf : Timeframe) (d : Int)
    (rows : List ArchiveRow) (h : (downloadAndParseZip env s tf d).1 = some rows) :
    rows ≠ [] := by
  obtain ⟨payload, _, hs, hp⟩ := download_some_parsed env s tf d rows h
  have hlen := parseAll_length s tf d payload rows hp
  unfold shapeOk at hs
  cases payload with
  | nil => simp at hs
  | cons p ps =>
    intro hnil
    rw [hnil] at hlen
    simp at hlen

theorem dayData_mem_ne_nil (env : BackfillEnv) (d : Int) :
    ∀ x ∈ dayData env d, x ≠ [] := by
  intro x hx
  unfold dayData dayFetches at hx
  simp only [List.mem_filterMap, List.mem_map] at hx
  obtain ⟨trip, ⟨p, hp, htrip⟩, hsome⟩ := hx
  rw [← htrip] at hsome
  exact download_some_ne_nil env p.1 p.2 d x hsome

theorem dayData_flatten_ne_nil (env : BackfillEnv) (d : Int)
    (h : (dayData env d).isEmpty = false) : (dayData env d).flatten ≠ [] := by
  intro hf
  rw [List.flatten_eq_nil_iff] at hf
  have hex : ∃ x, x ∈ dayData env d := by
    cases hdd : dayData env d with
    | nil => rw [hdd] at h; simp at h
    | cons x xs => exact ⟨x, by simp [hdd]⟩
  obtain ⟨x, hx⟩ := hex
  exact dayData_mem_ne_nil env d x hx (hf x hx)

theorem backfillGo_cons_empty (env : BackfillEnv) (d : Int) (rest : List Int)
    (acc : BackfillResult) (hdd : (dayData env d).isEmpty = true) :
    backfillGo env (d :: rest) acc =
      backfillGo env rest
        { acc with
          fetchedUnits := acc.fetchedUnits ++ (dayFetches env d).map (fun x => (d, x.1, x.2.1)),
          processedDates := acc.processedDates ++ [d] } := by
  unfold backfillGo
  rw [if_pos hdd]
  rw [← backfillGo.eq_def]

theorem backfillGo_cons_load_ok (env : BackfillEnv) (d : Int) (rest : List Int)
    (acc : BackfillResult) (k : Nat) (hdd : (dayData env d).isEmpty = false)
    (hk : env.load (dayData env d).flatten = .ok k) :
    backfillGo env (d :: rest) acc =
      backfillGo env rest
        { acc with
          fetchedUnits := acc.fetchedUnits ++ (dayFetches env d).map (fun x => (d, x.1, x.2.1)),
          loadCalls := acc.loadCalls ++ [(d, (dayData env d).flatten)],
          totalFiles := acc.totalFiles + (dayData env d).length,
          totalRows := acc.totalRows + k,
          processedDates := acc.processedDates ++ [d] } := by
  unfold backfillGo
  rw [if_neg (by simp [hdd])]
  simp only [hk]
  rw [← backfillGo.eq_def]

theorem backfillGo_cons_load_err (env : BackfillEnv) (d : Int) (rest : List Int)
    (acc : BackfillResult) (e : Unit) (hdd : (dayData env d).isEmpty = false)
    (he : env.load (dayData env d).flatten = .error e) :
    backfillGo env (d :: rest) acc =
      { acc with
        fetchedUnits := acc.fetchedUnits ++ (dayFetches env d).map (fun x => (d, x.1, x.2.1)),
        loadCalls := acc.loadCalls ++ [(d, (dayData env d).flatten)],
        processedDates := acc.processedDates ++ [d],
        aborted := true } := by
  unfold backfillGo
  rw [if_neg (by simp [hdd])]
  simp only [he]

theorem backfillGo_ok (env : BackfillEnv)
    (hload : ∀ rows, ∃ k, env.load rows = .ok k) :
    ∀ (ds : List Int) (acc : BackfillResult),
      (backfillGo env ds acc).loadCalls =
        acc.loadCalls ++ ds.filterMap (fun d =>
          if (dayData env d).isEmpty then none
          else some (d, (dayData env d).flatten)) ∧
      (backfillGo env ds acc).processedDates = acc.processedDates ++ ds ∧
      (backfillGo env ds acc).aborted = acc.aborted ∧
      (backfillGo env ds acc).fetchedUnits =
        acc.fetchedUnits ++ ds.flatMap (fun d =>
          (dayFetches env d).map (fun x => (d, x.1, x.2.1))) := by
  intro ds
  induction ds with
  | nil =>
    intro acc
    simp [backfillGo]
  | cons d rest ih =>
    intro acc
    by_cases hdd : (dayData env d).isEmpty
    · rw [backfillGo_cons_empty env d rest acc hdd]
      refine ⟨?_, ?_, ?_, ?_⟩
      · rw [(ih _).1]
        have hdd2 : dayData env d = [] := by simpa using hdd
        simp [List.filterMap_cons, hdd2]
      · rw [(ih _).2.1]
        simp
      · rw [(ih _).2.2.1]
      · rw [(ih _).2.2.2]
        simp [List.flatMap_cons, List.append_assoc]
    · rw [Bool.not_eq_true] at hdd
      obtain ⟨k, hk⟩ := hload (dayData env d).flatten
      rw [backfillGo_cons_load_ok env d rest acc k hdd hk]
      refine ⟨?_, ?_, ?_, ?_⟩
      · rw [(ih _).1]
        have hdd2 : dayData env d ≠ [] := by simpa using hdd
        simp [List.filterMap_cons, hdd2, List.append_assoc]
      · rw [(ih _).2.1]
        simp
      · rw [(ih _).2.2.1]
      · rw [(ih _).2.2.2]
        simp [List.flatMap_cons, List.append_assoc]

theorem backfillGo_loadCalls_rows (env : BackfillEnv) :
    ∀ (ds : List Int) (acc : BackfillResult),
      (∀ c ∈ acc.loadCalls, c.2 ≠ []) →
      ∀ c ∈ (backfillGo env ds acc).loadCalls, c.2 ≠ [] := by
  intro ds
  induction ds with
  | nil =>
    intro acc hacc
    simpa [backfillGo] using hacc
  | cons d rest ih =>
    intro acc hacc
    by_cases hdd : (dayData env d).isEmpty
    · rw [backfillGo_cons_empty env d rest acc hdd]
      exact ih _ (by simpa using hacc)
    · rw [Bool.not_eq_true] at hdd
      have hgrow : ∀ c ∈ acc.loadCalls ++ [(d, (dayData env d).flatten)], c.2 ≠ [] := by
        intro c hc
        simp only [List.mem_append, List.mem_singleton] at hc
        rcases hc with hc | hc
        · exact hacc c hc
        · subst hc
          exact dayData_flatten_ne_nil env d hdd
      cases hl : env.load (dayData env d).flatten with
      | ok k =>
        rw [backfillGo_cons_load_ok env d rest acc k hdd hl]
        exact ih _ (by simpa using hgrow)
      | error e =>
        rw [backfillGo_cons_load_err env d rest acc e hdd hl]
        simpa using hgrow

theorem dayData_all_none (env : BackfillEnv) (d : Int)
    (hnone : ∀ s tf, (downloadAndParseZip env s tf d).1 = none) :
    dayData env d = [] := by
  unfold dayData dayFetches
  rw [List.filterMap_eq_nil_iff]
  intro x hx
  simp only [List.mem_map] at hx
  obtain ⟨p, hp, rfl⟩ := hx
  exact hnone p.1 p.2

theorem backfillGo_all_none (env : BackfillEnv)
    (hnone : ∀ s tf d, (downloadAndParseZip env s tf d).1 = none) :
    ∀ (ds : List Int) (acc : BackfillResult),
      (backfillGo env ds acc).loadCalls = acc.loadCalls ∧
      (backfillGo env ds acc).totalRows = acc.totalRows := by
  intro ds
  induction ds with
  | nil => intro acc; exact ⟨rfl, rfl⟩
  | cons d rest ih =>
    intro acc
    have hdd : dayData env d = [] := dayData_all_none env d (fun s tf => hnone s tf d)
    have hcond : (dayData env d).isEmpty = true := by rw [hdd]; rfl
    rw [backfillGo_cons_empty env d rest acc hcond]
    exact ih _

theorem collectData_outcomes (env : CollectEnv) (today : Int) (n : Nat) :
    (collectData env today n).outcomes =
      (collectSteps env today n).map
        (fun p => (p.1.1, clean_symbol p.1.2.1, p.1.2.2, p.2.outcome)) := rfl

theorem collectData_fetchCalls (env : CollectEnv) (today : Int) (n : Nat) :
    (collectData env today n).fetchCalls =
      (collectSteps env today n).countP (fun p => p.2.fetchCalled) := rfl

theorem collectData_loadCalls (env : CollectEnv) (today : Int) (n : Nat) :
    (collectData env today n).loadCalls =
      if (collectAllData env today n).isEmpty then []
      else [(collectAllData env today n).flatten] := rfl

theorem collectData_loadedRows (env : CollectEnv) (today : Int) (n : Nat) :
    (collectData env today n).loadedRows =
      if (collectAllData env today n).isEmpty then 0
      else if env.loadOk then (collectAllData env today n).flatten.length else 0 := rfl

theorem collectData_loadFailed (env : CollectEnv) (today : Int) (n : Nat) :
    (collectData env today n).loadFailed =
      if (collectAllData env today n).isEmpty then false else !env.loadOk := rfl

theorem collectData_status (env : CollectEnv) (today : Int) (n : Nat) :
    (collectData env today n).status =
      if (collectSteps env today n).countP (fun p => p.2.outcome.isSuccess) =
          SYMBOLS_CCXT.length * TIMEFRAMES.length * n
        then 200 else 207 := rfl

theorem collectSteps_length (env : CollectEnv) (today : Int) (n : Nat) :
    (collectSteps env today n).length = SYMBOLS_CCXT.length * TIMEFRAMES.length * n := by
  unfold collectSteps
  rw [List.length_map, liveGrid_length]

theorem flatten_filterMap_nonempty {α β : Type} (f : α → List β) :
    ∀ l : List α,
      (l.filterMap (fun x => if (f x).isEmpty then none else some (f x))).flatten =
        (l.map f).flatten := by
  intro l
  induction l with
  | nil => rfl
  | cons x xs ih =>
    by_cases hx : (f x).isEmpty
    · have hx2 : f x = [] := by simpa using hx
      simp [List.filterMap_cons, hx, hx2, ih]
    · simp [List.filterMap_cons, hx, ih]

theorem collectAllData_flatten (env : CollectEnv) (today : Int) (n : Nat) :
    (collectAllData env today n).flatten =
      ((collectSteps env today n).map (fun p => p.2.candles)).flatten := by
  unfold collectAllData
  exact flatten_filterMap_nonempty (fun p => p.2.candles) (collectSteps env today n)

theorem collectAllData_mem_ne_nil (env : CollectEnv) (today : Int) (n : Nat) :
    ∀ x ∈ collectAllData env today n, x ≠ [] := by
  intro x hx
  unfold collectAllData at hx
  rw [List.mem_filterMap] at hx
  obtain ⟨p, hp, hsome⟩ := hx
  by_cases hc : p.2.candles.isEmpty
  · rw [if_pos hc] at hsome
    exact absurd hsome (by simp)
  · rw [if_neg hc] at hsome
    simp only [Option.some.injEq] at hsome
    subst hsome
    simpa using hc

/-! ## Claim C1 — idempotence of the pipeline

The daily collector (main.py) checks existence before fetching and is
idempotent. The backfill job (backfill.py `main`) never consults the
destination store at all — its environment has no existence oracle — so a
second run over an already-captured grid fetches every unit again and
appends the same rows again. The claim as stated, covering both entry
points, is therefore false; it holds for the collector. -/

/-- Backfill environment: the archive serves one valid 12-column row for
BTCUSDT/1m (404 for everything else) and the destination load succeeds,
reporting the row count. The destination's existing contents are not an
input of the job at all. -/
def envC1 : BackfillEnv :=
  { http := fun s tf _ =>
      if s = "BTCUSDT" ∧ tf = Timeframe.m1 then .ok [List.replicate 12 (Cell.num 0)]
      else .notFound
    load := fun rows => .ok rows.length }

/-- Claim C1 is false for the backfill job: `backfillMain` does not read
the destination store (no oracle in `BackfillEnv`), so any run — in
particular the second run over the same one-day window, after a first run
captured BTCUSDT/1m — still fetches the captured unit (it is not skipped)
and appends 1 additional row instead of 0. -/
theorem C1_counterexample :
    (backfillMain envC1 20000 1).totalRows = 1 ∧
    ((20000 : Int) - 1, "BTCUSDT", Timeframe.m1) ∈ (backfillMain envC1 20000 1).fetchedUnits := by
  constructor
  · decide
  · decide

/-- Claim C1 (amended): the idempotence property holds for the daily
collector only. If the destination reports at least one existing row for
every unit — as it does after a first run that captured those units — then
a second collect_data run marks every unit skipped, attempts no fetch,
issues no load call, and appends zero rows. -/
theorem C1_collector_idempotent (env : CollectEnv) (today : Int) (n : Nat)
    (h : ∀ s tf d, ∃ k, env.oracle s tf d = .ok k ∧ 0 < k) :
    (∀ o ∈ (collectData env today n).outcomes, ∃ k, o.2.2.2 = UnitOutcome.skipped k) ∧
    (collectData env today n).fetchCalls = 0 ∧
    (collectData env today n).loadCalls = [] ∧
    (collectData env today n).loadedRows = 0 := by
  have hsteps : ∀ p ∈ collectSteps env today n, ∃ k, 0 < k ∧
      p.2 = { outcome := .skipped k, fetchCalled := false, candles := [] } := by
    intro p hp
    unfold collectSteps at hp
    rw [List.mem_map] at hp
    obtain ⟨u, hu, rfl⟩ := hp
    obtain ⟨k, hk, hkpos⟩ := h (clean_symbol u.2.1) u.2.2 u.1
    exact ⟨k, hkpos, processUnit_skip env u.1 (startMsOfDate u.1) u.2.1 u.2.2 k hkpos hk⟩
  have hall : collectAllData env today n = [] := by
    unfold collectAllData
    rw [List.filterMap_eq_nil_iff]
    intro p hp
    obtain ⟨k, hkpos, hpeq⟩ := hsteps p hp
    rw [hpeq]
    rfl
  refine ⟨?_, ?_, ?_, ?_⟩
  · rw [collectData_outcomes]
    intro o ho
    rw [List.mem_map] at ho
    obtain ⟨p, hp, rfl⟩ := ho
    obtain ⟨k, hkpos, hpeq⟩ := hsteps p hp
    exact ⟨k, by rw [hpeq]⟩
  · rw [collectData_fetchCalls, List.countP_eq_zero]
    intro p hp
    obtain ⟨k, hkpos, hpeq⟩ := hsteps p hp
    rw [hpeq]
    simp
  · rw [collectData_loadCalls, hall]
    rfl
  · rw [collectData_loadedRows, hall]
    rfl

/-- Collector environment whose destination reports 3 existing rows for
every unit. -/
def envC1W : CollectEnv :=
  { oracle := fun _ _ _ => .ok 3
    fetch := fun _ _ _ _ => .error ()
    loadOk := true }

theorem C1_witness :
    (collectData envC1W 100 2).loadCalls = [] ∧
    (collectData envC1W 100 2).fetchCalls = 0 :=
  ⟨(C1_collector_idempotent envC1W 100 2 (fun _ _ _ => ⟨3, rfl, by decide⟩)).2.2.1,
   (C1_collector_idempotent envC1W 100 2 (fun _ _ _ => ⟨3, rfl, by decide⟩)).2.1⟩

/-! ## Claim C2 — 404 versus transient transport failure

A 404 does return `None` (the no-data outcome) and no exception escapes,
so the first half of the claim holds. But a transient transport failure
does not yield a distinct `FetchError` value: the `except` clause of
`download_and_parse_zip` swallows the exception, prints a line, and
returns the very same `None`; the caller cannot tell the two apart from
the returned value. -/

/-- Backfill environment in which every archive request fails with a
transport error. -/
def envC2fail : BackfillEnv :=
  { http := fun _ _ _ => .fail
    load := fun rows => .ok rows.length }

/-- Backfill environment in which every archive request returns 404. -/
def envC2notFound : BackfillEnv :=
  { http := fun _ _ _ => .notFound
    load := fun rows => .ok rows.length }

/-- Claim C2 is false in its second half: a transient transport failure
does not yield a `FetchError` for the unit — `download_and_parse_zip`
returns `None`, the very value the 404 path returns, so the caller-visible
outcome of a transport failure is identical to the no-data outcome. -/
theorem C2_counterexample :
    (downloadAndParseZip envC2fail "BTCUSDT" Timeframe.m1 0).1 = none ∧
    (downloadAndParseZip envC2fail "BTCUSDT" Timeframe.m1 0).1 =
      (downloadAndParseZip envC2notFound "BTCUSDT" Timeframe.m1 0).1 := by
  constructor
  · rfl
  · rfl

/-- Claim C2 (amended): a 404 yields the no-data result `None` with no
error logged — never a failure outcome; a transport failure also yields
`None`, distinguished only by the printed error line, not by the value
returned to the grid traversal. -/
theorem C2_notFound_is_noData (env : BackfillEnv) (s : String) (tf : Timeframe) (d : Int) :
    (env.http s tf d = .notFound →
      downloadAndParseZip env s tf d = (none, [])) ∧
    (env.http s tf d = .fail →
      downloadAndParseZip env s tf d = (none, [errMsg s tf d])) := by
  constructor
  · intro h
    unfold downloadAndParseZip
    rw [h]
  · intro h
    unfold downloadAndParseZip
    rw [h]

theorem C2_witness :
    downloadAndParseZip envC2notFound "ETHUSDT" Timeframe.h1 7 = (none, []) :=
  (C2_notFound_is_noData envC2notFound "ETHUSDT" Timeframe.h1 7).1 rfl

/-! ## Claim C3 — per-unit error containment

Fetch/parse/existence errors are indeed caught per unit in both entry
points. But in backfill.py `main`, the call to `load_to_bigquery` is not
inside any `try`: a load failure raises out of the date loop, so the
remaining dates (and all their units) are never processed. -/

/-- Backfill environment in which every archive request succeeds with one
valid row and every destination load raises. -/
def envC3 : BackfillEnv :=
  { http := fun _ _ _ => .ok [List.replicate 12 (Cell.num 0)]
    load := fun _ => .error () }

/-- Claim C3 is false for the backfill job: with a 2-day window, the load
failure of the first date (100-1 = 99) aborts the run, and the units of the
second date (98) are never fetched — a per-unit-batch load error does
propagate out of the grid traversal and prevents sibling units from being
processed. -/
theorem C3_counterexample :
    (backfillMain envC3 100 2).aborted = true ∧
    ((98 : Int), "ETHUSDT", Timeframe.h1) ∉ (backfillMain envC3 100 2).fetchedUnits := by
  constructor
  · decide
  · decide

/-- Claim C3 (amended): per-unit fetch, schema, and existence-check errors
are caught at the unit boundary and never abort the traversal — the
collector processes its entire grid for every environment, and the
backfill job visits every requested date and never aborts provided no
destination load fails. Only a backfill load failure escapes the
traversal. -/
theorem C3_unit_errors_contained (cenv : CollectEnv) (benv : BackfillEnv)
    (today : Int) (n : Nat)
    (hload : ∀ rows, ∃ k, benv.load rows = .ok k) :
    (collectData cenv today n).outcomes.length =
      SYMBOLS_CCXT.length * TIMEFRAMES.length * n ∧
    (backfillMain benv today n).aborted = false ∧
    (backfillMain benv today n).processedDates = datesOf today n := by
  obtain ⟨h1, h2, h3, h4⟩ :=
    backfillGo_ok benv hload (datesOf today n)
      { fetchedUnits := [], loadCalls := [], totalFiles := 0, totalRows := 0,
        processedDates := [], aborted := false }
  refine ⟨?_, ?_, ?_⟩
  · rw [collectData_outcomes, List.length_map, collectSteps_length]
  · rw [show (backfillMain benv today n).aborted =
        (backfillGo benv (datesOf today n)
          { fetchedUnits := [], loadCalls := [], totalFiles := 0, totalRows := 0,
            processedDates := [], aborted := false }).aborted from rfl, h3]
  · rw [show (backfillMain benv today n).processedDates =
        (backfillGo benv (datesOf today n)
          { fetchedUnits := [], loadCalls := [], totalFiles := 0, totalRows := 0,
            processedDates := [], aborted := false }).processedDates from rfl, h2]
    rfl

/-- Environments for the C3 witness: archive 404s everywhere, collector
oracle raises everywhere; loads succeed. -/
def envC3Wb : BackfillEnv :=
  { http := fun _ _ _ => .notFound
    load := fun rows => .ok rows.length }

def envC3Wc : CollectEnv :=
  { oracle := fun _ _ _ => .error ()
    fetch := fun _ _ _ _ => .error ()
    loadOk := true }

theorem C3_witness :
    (collectData envC3Wc 50 3).outcomes.length = 48 ∧
    (backfillMain envC3Wb 50 3).aborted = false :=
  ⟨(C3_unit_errors_contained envC3Wc envC3Wb 50 3
      (fun rows => ⟨rows.length, rfl⟩)).1,
   (C3_unit_errors_contained envC3Wc envC3Wb 50 3
      (fun rows => ⟨rows.length, rfl⟩)).2.1⟩

/-! ## Claim C4 — exit status

`success_count` is incremented when a unit is skipped or when its bars are
collected; the final BigQuery load happens afterwards and its failure is
caught without touching `success_count`. So the 200/207 split reflects
only skipped-or-collected, not `LOADED`: a run in which every unit was
collected but the single load call failed still returns 200 even though
no unit's rows reached the destination. -/

/-- Collector environment: nothing exists yet, every fetch returns one
in-window bar, and the destination load fails. -/
def envC4 : CollectEnv :=
  { oracle := fun _ _ _ => .ok 0
    fetch := fun _ _ since _ => .ok [{ open_time := since, o := 1, h := 1, l := 1, c := 1, v := 1 }]
    loadOk := false }

/-- Claim C4 is false: in this run every unit was fetched but the load
failed, so no unit reached `LOADED` (or `SKIPPED`) — yet the response
status is the success code 200, not the partial code. -/
theorem C4_counterexample :
    (collectData envC4 200 1).status = 200 ∧
    (collectData envC4 200 1).loadFailed = true := by
  constructor
  · decide
  · decide

/-- Claim C4 (amended): the status is 200 exactly when every unit in the
grid was skipped or had its bars collected (the quantity `success_count`
measures); the load outcome plays no part in it. Otherwise — any unit in
an error or no-data state — the status is the distinct partial code 207. -/
theorem C4_status_iff (env : CollectEnv) (today : Int) (n : Nat) :
    ((collectData env today n).status = 200 ↔
      ∀ o ∈ (collectData env today n).outcomes, o.2.2.2.isSuccess = true) ∧
    ((collectData env today n).status = 200 ∨ (collectData env today n).status = 207) := by
  rw [collectData_status, collectData_outcomes]
  have hlen := collectSteps_length env today n
  constructor
  · constructor
    · intro h
      by_cases hc : (collectSteps env today n).countP (fun p => p.2.outcome.isSuccess) =
          SYMBOLS_CCXT.length * TIMEFRAMES.length * n
      · rw [← hlen] at hc
        rw [List.countP_eq_length] at hc
        intro o ho
        rw [List.mem_map] at ho
        obtain ⟨p, hp, rfl⟩ := ho
        exact hc p hp
      · rw [if_neg hc] at h
        exact absurd h (by decide)
    · intro hall
      have hcl : (collectSteps env today n).countP (fun p => p.2.outcome.isSuccess) =
          (collectSteps env today n).length := by
        rw [List.countP_eq_length]
        intro p hp
        exact hall _ (List.mem_map.mpr ⟨p, hp, rfl⟩)
      rw [hcl, hlen, if_pos rfl]
  · by_cases hc : (collectSteps env today n).countP (fun p => p.2.outcome.isSuccess) =
        SYMBOLS_CCXT.length * TIMEFRAMES.length * n
    · rw [if_pos hc]
      exact Or.inl rfl
    · rw [if_neg hc]
      exact Or.inr rfl

/-! ## Claim C5 — live-query day-window filter -/

/-- Claim C5: for a live fetch for the day starting at `startMs`, the rows
kept are exactly the fetched rows whose timestamp lies in
`[startMs, startMs + 86_400_000)` (main.py line 87, applied before the
normalization of lines 93-107), and consequently every produced candle's
microsecond timestamp lies inside the day window. -/
theorem C5_window_filter (env : CollectEnv) (d startMs : Int) (s : String) (tf : Timeframe) :
    (∀ rows, env.oracle (clean_symbol s) tf d = .ok 0 →
      env.fetch s tf startMs (BARS_PER_DAY tf + 10) = .ok rows →
      (processUnit env d startMs s tf).candles =
        (rows.filter (inWindow startMs)).map (normalizeLive (clean_symbol s) tf d)) ∧
    (∀ c ∈ (processUnit env d startMs s tf).candles,
      startMs * 1000 ≤ c.open_time ∧ c.open_time < (startMs + 86400000) * 1000) := by
  constructor
  · intro rows ho hf
    unfold processUnit
    simp only [ho, hf]
    rw [if_neg (by decide : ¬ ((0 : Nat) > 0))]
    by_cases he : rows.isEmpty
    · rw [if_pos he]
      have he2 : rows = [] := by simpa using he
      subst he2
      rfl
    · rw [if_neg he]
      by_cases hfe : (rows.filter (inWindow startMs)).isEmpty
      · rw [if_pos hfe]
        have hfe2 : rows.filter (inWindow startMs) = [] := by simpa using hfe
        rw [hfe2]
        rfl
      · rw [if_neg hfe]
  · intro c hc
    rcases processUnit_candles_shape env d startMs s tf with h0 | ⟨rows, hf, heq⟩
    · rw [h0] at hc
      exact absurd hc (by simp)
    · rw [heq] at hc
      rw [List.mem_map] at hc
      obtain ⟨r, hr, rfl⟩ := hc
      rw [List.mem_filter] at hr
      obtain ⟨hrmem, hrw⟩ := hr
      unfold inWindow at hrw
      rw [Bool.and_eq_true, decide_eq_true_eq, decide_eq_true_eq] at hrw
      constructor
      · show startMs * 1000 ≤ r.open_time * 1000
        omega
      · show r.open_time * 1000 < (startMs + 86400000) * 1000
        omega

/-- Collector environment for the C5 witness: the exchange returns one
in-window bar and one bar past the end of the day. -/
def envC5W : CollectEnv :=
  { oracle := fun _ _ _ => .ok 0
    fetch := fun _ _ _ _ => .ok
      [{ open_time := 5, o := 0, h := 0, l := 0, c := 0, v := 0 },
       { open_time := 86400001, o := 0, h := 0, l := 0, c := 0, v := 0 }]
    loadOk := true }

theorem C5_witness :
    (processUnit envC5W 0 0 "BTC/USDT:USDT" Timeframe.m1).candles =
      (([{ open_time := 5, o := 0, h := 0, l := 0, c := 0, v := 0 },
         { open_time := 86400001, o := 0, h := 0, l := 0, c := 0, v := 0 }] :
          List LiveRow).filter (inWindow 0)).map
        (normalizeLive (clean_symbol "BTC/USDT:USDT") Timeframe.m1 0) :=
  (C5_window_filter envC5W 0 0 "BTC/USDT:USDT" Timeframe.m1).1 _ rfl rfl

/-! ## Claim C6 — close_time minus open_time

The live path derives `close_time = open_time + tf_minutes * 60 * 1_000_000`
(µs), so the invariant holds there. The archive path copies `close_time`
from column 6 of the CSV unchanged (backfill.py line 62 only converts the
unit), so normalization imposes no relation between the two fields: a
payload whose close_time is not open_time + duration (as real Binance
archives, which end bars at duration − 1 ms) passes through unchanged. -/

theorem cellVal_some {c : Cell} {v : Int} (h : cellVal c = some v) : c = Cell.num v := by
  cases c with
  | num w => simp only [cellVal, Option.some.injEq] at h; rw [h]
  | bad => simp [cellVal] at h

/-- Backfill environment serving one 12-column row whose close_time (59999)
is not open_time (0) plus the 1m nominal duration (60000, working in the
payload's millisecond unit). -/
def envC6 : BackfillEnv :=
  { http := fun _ _ _ => .ok [[Cell.num 0, Cell.num 1, Cell.num 1, Cell.num 1, Cell.num 1,
      Cell.num 1, Cell.num 59999, Cell.num 0, Cell.num 7, Cell.num 0, Cell.num 0, Cell.num 0]]
    load := fun rows => .ok rows.length }

/-- Claim C6 is false for archive-sourced rows: this unit normalizes
successfully, yet its single candle has `close_time − open_time = 59999`,
not the 1m nominal duration (60000 in the payload's time unit) — the
archive normalization never enforces the invariant. -/
theorem C6_counterexample :
    ((downloadAndParseZip envC6 "BTCUSDT" Timeframe.m1 0).1.map
        (fun rs => rs.map (fun a => a.close_time - a.open_time))) = some [59999] ∧
    (59999 : Int) ≠ 60 * 1000 := by
  constructor
  · decide
  · decide

/-- Claim C6 (amended): every candle normalized from the live source
satisfies `close_time − open_time = nominal timeframe duration in µs`;
for the archive source, normalization copies `open_time` and `close_time`
verbatim from columns 0 and 6 of the raw row, so the invariant holds there
only if the payload itself satisfies it. -/
theorem C6_duration (sym : String) (tf : Timeframe) (date : Int) :
    (∀ r : LiveRow,
      (normalizeLive sym tf date r).close_time - (normalizeLive sym tf date r).open_time =
        (nominalSeconds tf : Int) * 1000000) ∧
    (∀ (r : RawRow) (a : ArchiveRow), parseRow sym tf date r = some a →
      getCell r 0 = Cell.num a.open_time ∧ getCell r 6 = Cell.num a.close_time) := by
  constructor
  · intro r
    show r.open_time * 1000 + (tfMinutes tf : Int) * 60 * 1000000 - r.open_time * 1000 =
      (nominalSeconds tf : Int) * 1000000
    cases tf <;> simp [tfMinutes, nominalSeconds]
  · intro r a hp
    unfold parseRow at hp
    split at hp
    · rename_i ot ct tr h0 h6 h8
      simp only [Option.some.injEq] at hp
      subst hp
      exact ⟨cellVal_some h0, cellVal_some h6⟩
    · exact absurd hp (by simp)

theorem C6_witness :
    getCell [Cell.num 11, Cell.bad, Cell.bad, Cell.bad, Cell.bad, Cell.bad, Cell.num 22,
        Cell.bad, Cell.num 3, Cell.bad, Cell.bad, Cell.bad] 0 = Cell.num 11 :=
  ((C6_duration "BTCUSDT" Timeframe.m1 0).2
    [Cell.num 11, Cell.bad, Cell.bad, Cell.bad, Cell.bad, Cell.bad, Cell.num 22,
     Cell.bad, Cell.num 3, Cell.bad, Cell.bad, Cell.bad]
    { open_time := 11, o := none, h := none, l := none, c := none, v := none,
      close_time := 22, quote_volume := none, trades := 3,
      taker_buy_base := none, taker_buy_quote := none,
      symbol := "BTCUSDT", timeframe := Timeframe.m1, date := 0 }
    (by decide)).1

/-! ## Claim C7 — load batching

The backfill job does issue one load per date (lines 184-189), with the
date's frames concatenated in unit order. The daily collector instead
accumulates `all_data` across every date of the run and issues a single
load after the whole grid (lines 118-125) — one call per run, not one per
date. -/

/-- Collector environment: nothing exists, every fetch returns one
in-window bar, loads succeed. -/
def envC7 : CollectEnv :=
  { oracle := fun _ _ _ => .ok 0
    fetch := fun _ _ since _ => .ok [{ open_time := since, o := 1, h := 1, l := 1, c := 1, v := 1 }]
    loadOk := true }

/-- Claim C7 is false for the daily collector: over a 2-day window in
which all 32 units collect one bar each, collect_data issues exactly one
load call — carrying all 32 rows of both dates — instead of one call per
date. -/
theorem C7_counterexample :
    (collectData envC7 100 2).loadCalls.length = 1 ∧
    (collectData envC7 100 2).loadedRows = 32 := by
  constructor
  · decide
  · decide

/-- Claim C7 (amended): the backfill job hands the Loader exactly one call
per date that produced data, containing that date's unit frames
concatenated in unit-processing order; the daily collector issues at most
one load call per run, containing the candles of all units of the whole
grid concatenated in unit-processing order. -/
theorem C7_one_load_per_date (benv : BackfillEnv) (cenv : CollectEnv)
    (today : Int) (n : Nat)
    (hload : ∀ rows, ∃ k, benv.load rows = .ok k) :
    (backfillMain benv today n).loadCalls =
      (datesOf today n).filterMap (fun d =>
        if (dayData benv d).isEmpty then none
        else some (d, (dayData benv d).flatten)) ∧
    (collectData cenv today n).loadCalls.length ≤ 1 ∧
    (∀ c ∈ (collectData cenv today n).loadCalls,
      c = ((collectSteps cenv today n).map (fun p => p.2.candles)).flatten) := by
  refine ⟨?_, ?_, ?_⟩
  · rw [show (backfillMain benv today n).loadCalls =
        (backfillGo benv (datesOf today n)
          { fetchedUnits := [], loadCalls := [], totalFiles := 0, totalRows := 0,
            processedDates := [], aborted := false }).loadCalls from rfl,
      (backfillGo_ok benv hload (datesOf today n) _).1]
    rfl
  · rw [collectData_loadCalls]
    by_cases h : (collectAllData cenv today n).isEmpty
    · rw [if_pos h]
      simp
    · rw [if_neg h]
      simp
  · intro c hc
    rw [collectData_loadCalls] at hc
    by_cases h : (collectAllData cenv today n).isEmpty
    · rw [if_pos h] at hc
      exact absurd hc (by simp)
    · rw [if_neg h] at hc
      simp only [List.mem_singleton] at hc
      subst hc
      exact collectAllData_flatten cenv today n

/-- Environments for the C7 witness. -/
def envC7Wb : BackfillEnv :=
  { http := fun _ _ _ => .notFound
    load := fun rows => .ok rows.length }

def envC7Wc : CollectEnv :=
  { oracle := fun _ _ _ => .ok 1
    fetch := fun _ _ _ _ => .error ()
    loadOk := true }

theorem C7_witness :
    (backfillMain envC7Wb 40 2).loadCalls = [] ∧
    (collectData envC7Wc 40 2).loadCalls.length ≤ 1 := by
  have h := C7_one_load_per_date envC7Wb envC7Wc 40 2 (fun rows => ⟨rows.length, rfl⟩)
  refine ⟨?_, h.2.1⟩
  rw [h.1]
  decide

/-! ## Claim C8 — single-cell coercion

The eight float columns are converted with `errors='coerce'`, so a bad
cell there becomes NaN and the row survives. But `trades` is converted
with `astype(int)` and the two time columns with `pd.to_datetime`, both of
which raise on an unparsable cell; the raised exception is caught by the
outer `except`, which discards the whole unit (returns `None`) rather than
raising a `SchemaError` — so a single bad numeric cell can fail the unit
even though the payload's 12-column shape matches the layout. -/

theorem parseRow_isNum (sym : String) (tf : Timeframe) (date : Int) (r : RawRow)
    (h0 : (getCell r 0).isNum = true) (h6 : (getCell r 6).isNum = true)
    (h8 : (getCell r 8).isNum = true) :
    ∃ a, parseRow sym tf date r = some a := by
  cases c0 : getCell r 0 with
  | bad => rw [c0] at h0; exact absurd h0 (by simp [Cell.isNum])
  | num v0 =>
    cases c6 : getCell r 6 with
    | bad => rw [c6] at h6; exact absurd h6 (by simp [Cell.isNum])
    | num v6 =>
      cases c8 : getCell r 8 with
      | bad => rw [c8] at h8; exact absurd h8 (by simp [Cell.isNum])
      | num v8 =>
        have key : parseRow sym tf date r =
            some { open_time := v0, o := cellVal (getCell r 1), h := cellVal (getCell r 2),
                   l := cellVal (getCell r 3), c := cellVal (getCell r 4),
                   v := cellVal (getCell r 5), close_time := v6,
                   quote_volume := cellVal (getCell r 7), trades := v8,
                   taker_buy_base := cellVal (getCell r 9),
                   taker_buy_quote := cellVal (getCell r 10),
                   symbol := sym, timeframe := tf, date := date } := by
          unfold parseRow
          rw [c0, c6, c8]
          rfl
        exact ⟨_, key⟩

theorem parseAll_ok (sym : String) (tf : Timeframe) (date : Int) :
    ∀ l : List RawRow,
      (∀ r ∈ l, (getCell r 0).isNum = true ∧ (getCell r 6).isNum = true ∧
        (getCell r 8).isNum = true) →
      ∃ rows, parseAll sym tf date l = some rows ∧ rows.length = l.length := by
  intro l
  induction l with
  | nil => intro _; exact ⟨[], rfl, rfl⟩
  | cons r rest ih =>
    intro h
    obtain ⟨h0, h6, h8⟩ := h r (List.mem_cons_self r rest)
    obtain ⟨a, ha⟩ := parseRow_isNum sym tf date r h0 h6 h8
    obtain ⟨rows, hrows, hlen⟩ := ih (fun x hx => h x (List.mem_cons_of_mem r hx))
    refine ⟨a :: rows, ?_, by simp [hlen]⟩
    unfold parseAll
    rw [ha, hrows]

/-- Backfill environment serving a well-shaped 12-column payload whose
single flaw is an unparsable `trades` cell (position 8). -/
def envC8 : BackfillEnv :=
  { http := fun _ _ _ => .ok [[Cell.num 0, Cell.num 1, Cell.num 1, Cell.num 1, Cell.num 1,
      Cell.num 1, Cell.num 60000, Cell.num 0, Cell.bad, Cell.num 0, Cell.num 0, Cell.num 0]]
    load := fun rows => .ok rows.length }

/-- Claim C8 is false: this payload matches the 12-column layout and has
exactly one unparsable numeric cell (the `trades` column), yet
normalization fails the whole unit (`None`) instead of coercing the cell
and keeping the row. -/
theorem C8_counterexample :
    (downloadAndParseZip envC8 "BTCUSDT" Timeframe.m1 0).1 = none := by
  decide

/-- Claim C8 (amended): for a non-empty 12-column payload whose time
columns (0, 6) and trades column (8) are parseable, normalization always
succeeds and keeps every row, whatever the contents of the eight float
columns — an unparsable float cell is coerced to the NaN sentinel. An
unparsable time or trades cell, however, fails the whole unit, as does a
shape mismatch (both silently, as a `None` unit, not a raised
`SchemaError`). -/
theorem C8_float_coercion (env : BackfillEnv) (s : String) (tf : Timeframe) (d : Int)
    (payload : List RawRow)
    (hhttp : env.http s tf d = .ok payload)
    (hne : payload ≠ [])
    (hshape : ∀ r ∈ payload, r.length = 12 ∧ (getCell r 0).isNum = true ∧
      (getCell r 6).isNum = true ∧ (getCell r 8).isNum = true) :
    ∃ rows, downloadAndParseZip env s tf d = (some rows, []) ∧
      rows.length = payload.length := by
  have hshapeOk : shapeOk payload = true := by
    unfold shapeOk
    rw [Bool.and_eq_true]
    constructor
    · cases payload with
      | nil => exact absurd rfl hne
      | cons p ps => rfl
    · rw [List.all_eq_true]
      intro r hr
      have hr12 := (hshape r hr).1
      simpa using hr12
  obtain ⟨rows, hrows, hlen⟩ := parseAll_ok s tf d payload
    (fun r hr => ⟨(hshape r hr).2.1, (hshape r hr).2.2.1, (hshape r hr).2.2.2⟩)
  refine ⟨rows, ?_, hlen⟩
  unfold downloadAndParseZip
  split
  · rename_i hh
    rw [hhttp] at hh
    exact absurd hh (by simp)
  · rename_i hh
    rw [hhttp] at hh
    exact absurd hh (by simp)
  · rename_i payload2 hh
    rw [hhttp] at hh
    injection hh with hpay
    subst hpay
    rw [if_pos hshapeOk, hrows]

/-- Backfill environment for the C8 witness: a payload with parseable
time and trades cells and unparsable float cells everywhere else. -/
def envC8W : BackfillEnv :=
  { http := fun _ _ _ => .ok [[Cell.num 0, Cell.bad, Cell.bad, Cell.bad, Cell.bad, Cell.bad,
      Cell.num 300000, Cell.bad, Cell.num 9, Cell.bad, Cell.bad, Cell.bad]]
    load := fun rows => .ok rows.length }

theorem C8_witness :
    ∃ rows, downloadAndParseZip envC8W "BTCUSDT" Timeframe.m5 3 = (some rows, []) ∧
      rows.length = 1 :=
  C8_float_coercion envC8W "BTCUSDT" Timeframe.m5 3
    [[Cell.num 0, Cell.bad, Cell.bad, Cell.bad, Cell.bad, Cell.bad, Cell.num 300000,
      Cell.bad, Cell.num 9, Cell.bad, Cell.bad, Cell.bad]]
    rfl (by decide) (by decide)

/-! ## Claim C9 — the work grid -/

/-- Claim C9: the enumerated dates are exactly the `n` consecutive UTC days
strictly before today, beginning with yesterday (the current day is never
included), and every (date, symbol, timeframe) triple of either entry
point's grid is enumerated exactly once. -/
theorem C9_grid (today : Int) (n : Nat) :
    (∀ d : Int, d ∈ datesOf today n ↔ today - n ≤ d ∧ d < today) ∧
    (0 < n → (datesOf today n).head? = some (today - 1)) ∧
    ((liveGrid today n).Nodup ∧
      ∀ u : Int × String × Timeframe, u ∈ liveGrid today n ↔
        u.1 ∈ datesOf today n ∧ u.2 ∈ livePairs) ∧
    ((archiveGrid today n).Nodup ∧
      ∀ u : Int × String × Timeframe, u ∈ archiveGrid today n ↔
        u.1 ∈ datesOf today n ∧ u.2 ∈ archivePairs) := by
  refine ⟨datesOf_mem_iff today n, datesOf_head today n,
    ⟨liveGrid_nodup today n, ?_⟩, ⟨archiveGrid_nodup today n, ?_⟩⟩
  · intro u
    exact List.mem_product
  · intro u
    exact List.mem_product

theorem C9_witness :
    ((9 : Int) ∈ datesOf 10 2) ∧
    (datesOf 10 2).head? = some 9 ∧
    ((9 : Int), "BTC/USDT:USDT", Timeframe.m1) ∈ liveGrid 10 2 := by
  have h := C9_grid 10 2
  exact ⟨(h.1 9).mpr (by decide), h.2.1 (by decide),
    (h.2.2.1.2 (9, "BTC/USDT:USDT", Timeframe.m1)).mpr ⟨by decide, by decide⟩⟩

/-! ## Claim C10 — no empty load calls -/

/-- Claim C10: the Loader is never handed an empty row sequence — every
load call of either entry point carries at least one row; and in a run (or
date) where every unit yields no data or fails, no load call is issued and
the reported loaded-row total is zero. -/
theorem C10_no_empty_loads (benv : BackfillEnv) (cenv : CollectEnv)
    (today : Int) (n : Nat) :
    (∀ c ∈ (backfillMain benv today n).loadCalls, c.2 ≠ []) ∧
    (∀ c ∈ (collectData cenv today n).loadCalls, c ≠ []) ∧
    ((∀ s tf d, (downloadAndParseZip benv s tf d).1 = none) →
      (backfillMain benv today n).loadCalls = [] ∧
      (backfillMain benv today n).totalRows = 0) ∧
    ((∀ p ∈ collectSteps cenv today n, p.2.candles = []) →
      (collectData cenv today n).loadCalls = [] ∧
      (collectData cenv today n).loadedRows = 0) := by
  refine ⟨?_, ?_, ?_, ?_⟩
  · intro c hc
    exact backfillGo_loadCalls_rows benv (datesOf today n)
      { fetchedUnits := [], loadCalls := [], totalFiles := 0, totalRows := 0,
        processedDates := [], aborted := false }
      (by intro c0 hc0; exact absurd hc0 (by simp)) c hc
  · intro c hc
    rw [collectData_loadCalls] at hc
    by_cases h : (collectAllData cenv today n).isEmpty
    · rw [if_pos h] at hc
      exact absurd hc (by simp)
    · rw [if_neg h] at hc
      simp only [List.mem_singleton] at hc
      subst hc
      intro hflat
      rw [List.flatten_eq_nil_iff] at hflat
      have hex : ∃ x, x ∈ collectAllData cenv today n := by
        cases hdd : collectAllData cenv today n with
        | nil => rw [hdd] at h; simp at h
        | cons x xs => exact ⟨x, by simp [hdd]⟩
      obtain ⟨x, hx⟩ := hex
      exact collectAllData_mem_ne_nil cenv today n x hx (hflat x hx)
  · intro hnone
    obtain ⟨h1, h2⟩ := backfillGo_all_none benv hnone (datesOf today n)
      { fetchedUnits := [], loadCalls := [], totalFiles := 0, totalRows := 0,
        processedDates := [], aborted := false }
    exact ⟨h1, h2⟩
  · intro hempty
    have hall : collectAllData cenv today n = [] := by
      unfold collectAllData
      rw [List.filterMap_eq_nil_iff]
      intro p hp
      rw [hempty p hp]
      rfl
    constructor
    · rw [collectData_loadCalls, hall]
      rfl
    · rw [collectData_loadedRows, hall]
      rfl

/-- Environments for the C10 witness: archive always fails (every unit
yields `None`), collector oracle always raises (every unit errors). -/
def envC10Wb : BackfillEnv :=
  { http := fun _ _ _ => .fail
    load := fun rows => .ok rows.length }

def envC10Wc : CollectEnv :=
  { oracle := fun _ _ _ => .error ()
    fetch := fun _ _ _ _ => .error ()
    loadOk := true }

theorem C10_witness :
    (backfillMain envC10Wb 30 2).loadCalls = [] ∧
    (collectData envC10Wc 30 2).loadedRows = 0 := by
  have h := C10_no_empty_loads envC10Wb envC10Wc 30 2
  exact ⟨(h.2.2.1 (fun _ _ _ => rfl)).1, (h.2.2.2 (by decide)).2⟩

/-- Collector environment for the C4 witness: every unit already exists,
so every unit is skipped and the status is the success code. -/
def envC4W : CollectEnv :=
  { oracle := fun _ _ _ => .ok 2
    fetch := fun _ _ _ _ => .error ()
    loadOk := true }

theorem C4_witness : (collectData envC4W 20 1).status = 200 := by
  have h := C4_status_iff envC4W 20 1
  exact h.1.mpr (by decide)
